import Mathlib

/-!
Verification of the DICOM-RT-Station reception/grouping/forwarding pipeline.

This file gives a shallow embedding, in Lean 4, of the parts of the Python
source relevant to the claims under review:

* `sanitize_path_component` (src/dicom_processor.py lines 571-580),
* the received-file plan grouper `_group_and_move_received_files`
  (src/dicom_processor.py lines 251-515),
* the import pipeline `process_import_folder`
  (src/dicom_processor.py lines 706-1369),
* the effective `send_plan_to_node` / `_send_files_to_node` /
  `_sort_files_by_modality` send engine
  (src/dicom_processor.py lines 1551-1667; the second definition of
  `send_plan_to_node` at line 1551 shadows the earlier one at line 1371,
  so the live send path is the one modelled here),
* the `process_folder` batch builder of the DICOMnode daemon
  (src/DICOMnode/DICOMnode.py lines 643-750),
* the C-ECHO handler (src/DICOMnode/DICOMnode.py lines 62-77),
* the two `move_to_failed` quarantine routines
  (src/dicom_processor.py lines 582-615, src/DICOMnode/DICOMnode.py 961-988),
* the forwarding-rule evaluator `check_forwarding_rules`
  (src/rules_manager.py lines 185-258).

Strings are modelled as Lean `String`/`List Char`.  The Python regex class
`\w` is modelled by its ASCII fragment (letters, digits, underscore), which
is the fragment all claims speak about.  Filesystem effects are modelled as
explicit result lists (placements, deletions, written files).
-/

/-! ## Name sanitizer (src/dicom_processor.py lines 571-580)

Python source:
```
name = str(name).replace(':', '-').replace('/', '-')
return re.sub(r'[^\w\-_. ]', '_', name).strip()
```
-/

/-- ASCII fragment of the Python regex class `\w`: letters, digits, `_`.
Python's `\w` on `str` is Unicode-aware and additionally matches non-ASCII
word characters (for example the umlaut in `Müller`), which this fragment
does not; the model is therefore exact on ASCII characters only.
Statements whose truth depends on the extent of `\w` are made relative to
an abstract word-character predicate via `sanitizeWithW` below. -/
def isPyWordChar (c : Char) : Bool :=
  c.isAlphanum || c = '_'

/-- Characters kept by the regex `[^\w\-_. ]` substitution: word characters,
dash, underscore, dot and space. -/
def isAllowedChar (c : Char) : Bool :=
  isPyWordChar c || c = '-' || c = '_' || c = '.' || c = ' '

/-- The `.replace(':', '-')` step. -/
def replColon (c : Char) : Char :=
  if c = ':' then '-' else c

/-- The `.replace('/', '-')` step. -/
def replSlash (c : Char) : Char :=
  if c = '/' then '-' else c

/-- The `re.sub(r'[^\w\-_. ]', '_', name)` step, character-wise. -/
def subChar (c : Char) : Char :=
  if isAllowedChar c then c else '_'

/-- Whitespace removed by Python `str.strip()` (ASCII fragment). -/
def isPySpace (c : Char) : Bool :=
  c = ' ' || c = '\t' || c = '\n' || c = '\r' || c = '\x0b' || c = '\x0c'

/-- Left part of Python `str.strip()`. -/
def pyStripLeft (l : List Char) : List Char :=
  l.dropWhile isPySpace

/-- Right part of Python `str.strip()`. -/
def pyStripRight (l : List Char) : List Char :=
  (l.reverse.dropWhile isPySpace).reverse

/-- Python `str.strip()` with no argument: drop whitespace on both ends. -/
def pyStrip (l : List Char) : List Char :=
  pyStripRight (pyStripLeft l)

/-- Embedding of `DicomProcessor.sanitize_path_component`
(src/dicom_processor.py lines 571-580): replace `:` and `/` by `-`, replace
every character outside `[\w\-_. ]` by `_`, then `strip()`.  With
`isPyWordChar` as the word class this is exact on ASCII input; it equals
`sanitizeWithW isPyWordChar` below, the instance at the ASCII fragment of
`\w`. -/
def sanitize_path_component (l : List Char) : List Char :=
  pyStrip (((l.map replColon).map replSlash).map subChar)

/-- String-level wrapper of the sanitizer, used when building folder paths. -/
def sanitizeStr (s : String) : String :=
  (sanitize_path_component s.toList).asString

/-- The combined per-character action of the sanitizer before stripping. -/
def sanChar (c : Char) : Char :=
  subChar (replSlash (replColon c))

/-! ### Claim-side definitions for C5 (modelled from the claim's words only)

The claim describes the sanitizer as: (a) replace `:` and `/` with `-`;
(b) replace every character not in `[A-Za-z0-9_.\- ]` with `_`;
(c) collapse every run of consecutive `_` or `-` to a single `_`;
(d) trim leading and trailing `_`. -/

/-- Claim character class `[A-Za-z0-9_.\- ]` (steps (a)/(b) of the claim). -/
def claimAllowed (c : Char) : Bool :=
  c.isUpper || c.isLower || c.isDigit || c = '_' || c = '.' || c = '-' || c = ' '

/-- Step (a) of the claim: `:` and `/` become `-`. -/
def claimStepA (c : Char) : Char :=
  if c = ':' || c = '/' then '-' else c

/-- Step (b) of the claim: characters outside the class become `_`. -/
def claimStepB (c : Char) : Char :=
  if claimAllowed c then c else '_'

/-- Step (c) of the claim: collapse each run of `_`/`-` to one `_`.
The Boolean argument records whether the previous character belonged to a
run that has already emitted its single `_`. -/
def collapseRuns : Bool → List Char → List Char
  | _, [] => []
  | inRun, c :: rest =>
    if c = '_' || c = '-' then
      if inRun then collapseRuns true rest
      else '_' :: collapseRuns true rest
    else c :: collapseRuns false rest

/-- Step (d) of the claim: trim leading and trailing underscores. -/
def trimUnderscores (l : List Char) : List Char :=
  ((l.dropWhile (fun c => c = '_')).reverse.dropWhile (fun c => c = '_')).reverse

/-- The sanitizer as the claim C5 describes it (steps (a)-(d)). -/
def claimSanitize (l : List Char) : List Char :=
  trimUnderscores (collapseRuns false ((l.map claimStepA).map claimStepB))

/-- Kept class of the `re.sub` step relative to a word-character predicate
`w` standing for Python's `\w`: the regex class `[\w\-_. ]`. -/
def keptClass (w : Char → Bool) (c : Char) : Bool :=
  w c || c = '-' || c = '_' || c = '.' || c = ' '

/-- The sanitizer with the extent of Python's Unicode `\w` left abstract:
the Python source is this function at Python's Unicode word-character
predicate, and `sanitize_path_component` is its instance at the ASCII
fragment `isPyWordChar`. -/
def sanitizeWithW (w : Char → Bool) (l : List Char) : List Char :=
  pyStrip (((l.map replColon).map replSlash).map
    (fun c => if keptClass w c then c else '_'))

/-- The sanitizer as the amended claim describes it, relative to the same
word-character predicate: `:` and `/` become `-`, every other character
outside the kept class `[\w\-_. ]` becomes `_`, and leading and trailing
whitespace is stripped; no run-collapsing, no underscore-trimming. -/
def amendedSanitizeW (w : Char → Bool) (l : List Char) : List Char :=
  pyStrip (l.map (fun c =>
    if c = ':' || c = '/' then '-'
    else if keptClass w c then c else '_'))

/-! ### Helper lemmas about `dropWhile`-based stripping -/

theorem dropWhile_idem (p : Char → Bool) (l : List Char) :
    List.dropWhile p (List.dropWhile p l) = List.dropWhile p l := by
  induction l with
  | nil => rfl
  | cons a t ih =>
    by_cases h : p a
    · simp [List.dropWhile_cons, h, ih]
    · simp [List.dropWhile_cons, h]

theorem dropWhile_eq_self_of_front {p : Char → Bool} {l m : List Char}
    (hl : List.dropWhile p l = l) (hm : m <+: l) :
    List.dropWhile p m = m := by
  cases m with
  | nil => rfl
  | cons a t =>
    obtain ⟨r, hr⟩ := hm
    have hpa : p a = false := by
      by_contra hpa
      have hpa' : p a = true := by
        cases h : p a
        · exact absurd h hpa
        · rfl
      rw [← hr, List.cons_append] at hl
      rw [List.dropWhile_cons, if_pos hpa'] at hl
      have hsub := List.dropWhile_sublist (l := t ++ r) p
      have hlen := hsub.length_le
      rw [hl] at hlen
      simp at hlen
    rw [List.dropWhile_cons, if_neg (by simp [hpa])]

theorem pyStripRight_front (l : List Char) : pyStripRight l <+: l := by
  unfold pyStripRight
  have h := List.dropWhile_suffix (l := l.reverse) isPySpace
  have h2 : (l.reverse.dropWhile isPySpace).reverse <+: l.reverse.reverse :=
    List.reverse_prefix.mpr h
  simpa using h2

theorem pyStrip_idem (l : List Char) : pyStrip (pyStrip l) = pyStrip l := by
  unfold pyStrip
  have hy : List.dropWhile isPySpace (pyStripLeft l) = pyStripLeft l := by
    unfold pyStripLeft
    exact dropWhile_idem _ _
  have hL : pyStripLeft (pyStripRight (pyStripLeft l)) =
      pyStripRight (pyStripLeft l) := by
    unfold pyStripLeft
    exact dropWhile_eq_self_of_front hy (pyStripRight_front _)
  rw [hL]
  unfold pyStripRight
  rw [List.reverse_reverse, dropWhile_idem]

theorem mem_pyStrip {a : Char} {l : List Char} (h : a ∈ pyStrip l) : a ∈ l := by
  unfold pyStrip at h
  have h1 : a ∈ pyStripLeft l := (pyStripRight_front _).sublist.mem h
  unfold pyStripLeft at h1
  exact (List.dropWhile_sublist _).mem h1

theorem head?_pyStrip {l : List Char} {c : Char}
    (h : (pyStrip l).head? = some c) : isPySpace c = false := by
  have hpre := pyStripRight_front (pyStripLeft l)
  unfold pyStrip at h
  cases hs : pyStripRight (pyStripLeft l) with
  | nil => rw [hs] at h; simp at h
  | cons b t =>
    rw [hs] at h
    have hbc : b = c := by simpa using h
    rw [hs] at hpre
    obtain ⟨r, hr⟩ := hpre
    have hhead : (pyStripLeft l).head? = some b := by
      rw [← hr]; rfl
    have hnot := List.head?_dropWhile_not isPySpace l
    unfold pyStripLeft at hhead
    rw [hhead] at hnot
    rw [← hbc]
    exact hnot

theorem getLast?_pyStrip {l : List Char} {c : Char}
    (h : (pyStrip l).getLast? = some c) : isPySpace c = false := by
  unfold pyStrip pyStripRight at h
  rw [List.getLast?_reverse] at h
  have hnot := List.head?_dropWhile_not isPySpace (pyStripLeft l).reverse
  rw [h] at hnot
  exact hnot

/-! ### Helper lemmas about the per-character sanitizer action -/

theorem sanChar_allowed (c : Char) : isAllowedChar (sanChar c) = true := by
  unfold sanChar replColon replSlash subChar
  by_cases h1 : c = ':'
  · simp [h1]; decide
  · by_cases h2 : c = '/'
    · simp [h1, h2]; decide
    · simp only [if_neg h1, if_neg h2]
      by_cases h3 : isAllowedChar c
      · simp [h3]
      · simp [h3]; decide

theorem sanChar_idem (c : Char) : sanChar (sanChar c) = sanChar c := by
  have hal := sanChar_allowed c
  have hc : sanChar c ≠ ':' := by
    intro he
    rw [he] at hal
    exact absurd hal (by decide)
  have hs : sanChar c ≠ '/' := by
    intro he
    rw [he] at hal
    exact absurd hal (by decide)
  show subChar (replSlash (replColon (sanChar c))) = sanChar c
  unfold replColon replSlash subChar
  rw [if_neg hc, if_neg hs, if_pos hal]

theorem sanitize_eq_map (l : List Char) :
    sanitize_path_component l = pyStrip (l.map sanChar) := by
  unfold sanitize_path_component sanChar
  rw [List.map_map, List.map_map]
  rfl

theorem mem_sanitize_is_sanChar {a : Char} {l : List Char}
    (h : a ∈ sanitize_path_component l) : ∃ c, a = sanChar c := by
  rw [sanitize_eq_map] at h
  have h2 := mem_pyStrip h
  obtain ⟨c, _, hc⟩ := List.mem_map.mp h2
  exact ⟨c, hc.symm⟩

theorem claimAllowed_eq (c : Char) : claimAllowed c = isAllowedChar c := by
  rw [Bool.eq_iff_iff]
  unfold claimAllowed isAllowedChar isPyWordChar Char.isAlphanum Char.isAlpha
  simp only [Bool.or_eq_true, decide_eq_true_eq]
  constructor
  · intro h
    tauto
  · intro h
    tauto

/-! ## Theorems for claims C5, C6, C10 -/

/-- C5 counterexample.  The claim describes the sanitizer as also collapsing
runs of `_`/`-` and trimming leading/trailing `_`; on the input `"__a__"` the
source function returns `"__a__"` unchanged (all characters are in the kept
class and `strip()` only removes whitespace), while the claim's description
yields `"a"`.  So the claim, as stated, is false at this input. -/
theorem c5_sanitizer_counterexample :
    sanitize_path_component "__a__".toList ≠ claimSanitize "__a__".toList ∧
    sanitize_path_component "__a__".toList = "__a__".toList ∧
    claimSanitize "__a__".toList = "a".toList :=
  ⟨by decide, by decide, by decide⟩

/-- C5 amended.  For every input string the sanitizer (a) replaces `:` and
`/` with `-`, (b) replaces every other character outside the kept class
`[\w\-_. ]` with `_` — Python's Unicode word characters together with
`-`, `_`, `.` and space; on ASCII characters this class is exactly
`[A-Za-z0-9_.\- ]`, but non-ASCII word characters such as `ü` are kept —
and (c) strips leading and trailing whitespace; it performs no
run-collapsing and no underscore-trimming.  Formally: for every extent of
the word-character predicate the sanitizer equals exactly these steps, and
`sanitize_path_component` is the instance at the ASCII fragment. -/
theorem c5_sanitizer_amended (w : Char → Bool) (l : List Char) :
    sanitizeWithW w l = amendedSanitizeW w l ∧
    sanitize_path_component l = sanitizeWithW isPyWordChar l := by
  constructor
  · unfold sanitizeWithW amendedSanitizeW
    rw [List.map_map, List.map_map]
    congr 1
    apply List.map_congr_left
    intro c _
    have hd : keptClass w '-' = true := by simp [keptClass]
    by_cases h1 : c = ':'
    · subst h1
      simp [Function.comp, replColon, replSlash, hd]
    · by_cases h2 : c = '/'
      · subst h2
        simp [Function.comp, replColon, replSlash, hd]
      · simp [Function.comp, replColon, replSlash, h1, h2]
  · rfl

/-- C6.  The sanitizer is idempotent:
`sanitize(sanitize(s)) = sanitize(s)` for every string `s`. -/
theorem c6_sanitize_idempotent (l : List Char) :
    sanitize_path_component (sanitize_path_component l) =
      sanitize_path_component l := by
  rw [sanitize_eq_map l, sanitize_eq_map]
  have hmap : (pyStrip (l.map sanChar)).map sanChar = pyStrip (l.map sanChar) := by
    have hfix : ∀ a ∈ pyStrip (l.map sanChar), sanChar a = a := by
      intro a ha
      obtain ⟨c, _, hc⟩ := List.mem_map.mp (mem_pyStrip ha)
      rw [← hc]
      exact sanChar_idem c
    calc (pyStrip (l.map sanChar)).map sanChar
        = (pyStrip (l.map sanChar)).map id := List.map_congr_left hfix
      _ = pyStrip (l.map sanChar) := List.map_id _
  rw [hmap, pyStrip_idem]

/-- C10.  Every sanitizer output is free of `/`, `\` and `:` and has no
leading or trailing whitespace, so each sanitized value is a single safe
path component. -/
theorem c10_sanitizer_path_safety (l : List Char) :
    ((sanitize_path_component l).all
        (fun c => !(c = '/') && !(c = '\\') && !(c = ':'))) = true ∧
    ((sanitize_path_component l).head?.all (fun c => !isPySpace c)) = true ∧
    ((sanitize_path_component l).getLast?.all (fun c => !isPySpace c)) = true := by
  refine ⟨?_, ?_, ?_⟩
  · rw [List.all_eq_true]
    intro a ha
    obtain ⟨c, hc⟩ := mem_sanitize_is_sanChar ha
    have hal := sanChar_allowed c
    have h1 : sanChar c ≠ '/' := fun he => absurd (he ▸ hal) (by decide)
    have h2 : sanChar c ≠ '\\' := fun he => absurd (he ▸ hal) (by decide)
    have h3 : sanChar c ≠ ':' := fun he => absurd (he ▸ hal) (by decide)
    simp [hc, h1, h2, h3]
  · cases hh : (sanitize_path_component l).head? with
    | none => rfl
    | some c =>
      rw [sanitize_eq_map] at hh
      have hc := head?_pyStrip hh
      simp [Option.all, hc]
  · cases hh : (sanitize_path_component l).getLast? with
    | none => rfl
    | some c =>
      rw [sanitize_eq_map] at hh
      have hc := getLast?_pyStrip hh
      simp [Option.all, hc]

/-! ## Plan grouper data model (src/dicom_processor.py)

A `DFile` is the header data the grouper extracts from one staged DICOM
file (lines 260-281 and 745-800): modality, patient identity, SOP instance
UID, study UID, frame-of-reference UID, plan label, and for dose objects
the first `ReferencedRTPlanSequence[0].ReferencedSOPInstanceUID`.
`readOk` models whether `pydicom.dcmread` succeeds on the file, `placeOk`
whether the per-item try-block around its placement succeeds. -/

structure DFile where
  path : String
  readOk : Bool := true
  modality : String
  patientID : String
  patientName : String := "unknown"
  sopInstanceUID : String := "unknown"
  studyUID : String := "unknown"
  frameOfRefUID : String := "unknown"
  rtPlanLabel : String := "unknown"
  refPlanUID : Option String := none
  seriesDesc : Option String := none
  studyDesc : Option String := none
  placeOk : Bool := true
deriving DecidableEq, Repr

/-- RTPLAN partition (receive lines 271-272, import lines 788-789). -/
def planFilesOf (files : List DFile) : List DFile :=
  files.filter (fun f => f.readOk && f.modality = "RTPLAN")

/-- CT partition (receive lines 273-274, import lines 791-792). -/
def ctFilesOf (files : List DFile) : List DFile :=
  files.filter (fun f => f.readOk && f.modality = "CT")

/-- RTSTRUCT partition (receive lines 275-276, import lines 794-795). -/
def structFilesOf (files : List DFile) : List DFile :=
  files.filter (fun f => f.readOk && f.modality = "RTSTRUCT")

/-- Everything else readable lands in `other_files`
(receive lines 277-278, import lines 797-798). -/
def otherFilesOf (files : List DFile) : List DFile :=
  files.filter (fun f =>
    f.readOk && !(f.modality = "RTPLAN") && !(f.modality = "CT") &&
      !(f.modality = "RTSTRUCT"))

/-- Dose matching of the receive grouper (lines 289-298): a dose from
`other_files` is attached when its referenced plan SOP UID equals the
plan's SOP instance UID.  There is no PatientID comparison on this path. -/
def receiveDoseMatches (p : DFile) (others : List DFile) : List DFile :=
  others.filter (fun d => d.refPlanUID = some p.sopInstanceUID)

/-- Dose matching of the import pipeline (line 856): referenced plan SOP
UID must equal the plan's SOP instance UID AND the PatientIDs must agree. -/
def importDoseMatches (p : DFile) (others : List DFile) : List DFile :=
  others.filter (fun d =>
    d.refPlanUID = some p.sopInstanceUID && d.patientID = p.patientID)

/-- Frame-of-reference matching for CT and RTSTRUCT files
(receive lines 299-310, import lines 864-879): CT files first, then
RTSTRUCT files, as the source appends them into `frame_ref_map`. -/
def frameMatches (p : DFile) (cts structs : List DFile) : List DFile :=
  cts.filter (fun c => c.frameOfRefUID = p.frameOfRefUID) ++
    structs.filter (fun s => s.frameOfRefUID = p.frameOfRefUID)

/-- Last dot-segment of a UID, `study_id.split('.')[-1]` (line 894):
the characters after the last `.`, or the whole string without one. -/
def lastDotSegment (s : String) : String :=
  ((s.toList.reverse.takeWhile (fun c => !(c = '.'))).reverse).asString

/-- Patient folder `<watch>/<SafeName> (<SafeID>)` (lines 323, 903). -/
def patientFolder (watch : String) (f : DFile) : String :=
  watch ++ "/" ++ sanitizeStr f.patientName ++ " (" ++ sanitizeStr f.patientID ++ ")"

/-- Plan folder `<patient>/<SafeLabel>_<SafeStudySuffix>` (lines 324, 904). -/
def planFolderPath (watch : String) (p : DFile) : String :=
  patientFolder watch p ++ "/" ++ sanitizeStr p.rtPlanLabel ++ "_" ++
    sanitizeStr (lastDotSegment p.studyUID)

/-- File name used when a grouped file is written into a plan folder
(lines 327, 377, 432, 470 and 911, 949, 983, 993). -/
def planFolderFilename (p related : DFile) : String :=
  if related.modality = "CT" then
    "CT." ++ sanitizeStr related.sopInstanceUID ++ ".dcm"
  else related.modality ++ "_" ++ sanitizeStr p.rtPlanLabel ++ ".dcm"

/-! ### Receive-path grouping (`_group_and_move_received_files`) -/

/-- Destination of one received temp file after the flush is processed. -/
inductive RDest
  | planFolderDest (folder : String) (filename : String)
  | deletedTemp
deriving DecidableEq, Repr

/-- True for a plan-folder destination. -/
def RDest.isPlanFolder : RDest → Bool
  | RDest.planFolderDest _ _ => true
  | RDest.deletedTemp => false

/-- Placements performed by the move loop of the receive grouper
(lines 312-506): each RTPLAN is written to its plan folder, each dose of
`plan_ref_map[plan.sopInstanceUID]` is moved next to it, and each
frame-of-reference match is copied next to it.  `plan_ref_map` is keyed by
the plan's SOP UID and rebuilt from the same filter for plans sharing a
UID, so the per-plan dose list is exactly `receiveDoseMatches`. -/
def receivePlacements (watch : String) (files : List DFile) : List (DFile × RDest) :=
  (planFilesOf files).flatMap (fun p =>
    (p, RDest.planFolderDest (planFolderPath watch p) (planFolderFilename p p)) ::
      ((receiveDoseMatches p (otherFilesOf files)).map (fun d =>
        (d, RDest.planFolderDest (planFolderPath watch p) (planFolderFilename p d))) ++
       (frameMatches p (ctFilesOf files) (structFilesOf files)).map (fun r =>
        (r, RDest.planFolderDest (planFolderPath watch p) (planFolderFilename p r)))))

/-- Full outcome of one receive flush: the placements of the move loop,
followed by the cleanup of lines 509-515, which removes every temp file
that was not promoted anywhere (ungrouped files are deleted, not placed in
an orphan folder and not quarantined). -/
def receiveOutcome (watch : String) (files : List DFile) : List (DFile × RDest) :=
  let placed := receivePlacements watch files
  placed ++
    (files.filter (fun f => !placed.any (fun pr => pr.1 = f))).map
      (fun f => (f, RDest.deletedTemp))

/-! ### Import-path grouping (`process_import_folder`) -/

/-- Destination of one import-folder file after `process_import_folder`. -/
inductive IDest
  | planFolderDest (folder : String) (filename : String)
  | orphanFolderDest (folder : String) (filename : String)
  | failedDir
deriving DecidableEq, Repr

/-- Orphan folder `<patient>/Unzugeordnet_<SafeStudySuffix>` (line 1062). -/
def orphanFolderPath (watch : String) (f : DFile) : String :=
  patientFolder watch f ++ "/Unzugeordnet_" ++ sanitizeStr (lastDotSegment f.studyUID)

/-- Fallback label for orphans, `SeriesDescription` else `StudyDescription`
else `"Unzugeordnet"` (lines 1048-1052). -/
def fallbackLabel (f : DFile) : String :=
  match f.seriesDesc with
  | some s => s
  | none =>
    match f.studyDesc with
    | some s => s
    | none => "Unzugeordnet"

/-- Orphan file name (lines 1068-1073). -/
def orphanFilename (f : DFile) : String :=
  if f.modality = "CT" then "CT." ++ sanitizeStr f.sopInstanceUID ++ ".dcm"
  else f.modality ++ "_" ++ sanitizeStr (fallbackLabel f) ++ ".dcm"

/-- Unreadable files are quarantined during scanning (lines 801-804). -/
def unreadFailed (files : List DFile) : List (DFile × IDest) :=
  (files.filter (fun f => !f.readOk)).map (fun f => (f, IDest.failedDir))

/-- Phase 2 of the import (lines 886-1010): each plan is copied into its
plan folder together with its dose matches (the phase-1 filter of line 856
re-checked at line 947 before copying) and its frame-of-reference matches,
which are additionally required to belong to the same patient (line 976).
A failing per-plan try-block routes the plan file to `failed/`
(line 1009). -/
def importPhase2 (watch : String) (files : List DFile) : List (DFile × IDest) :=
  (planFilesOf files).flatMap (fun p =>
    if p.placeOk then
      (p, IDest.planFolderDest (planFolderPath watch p) (planFolderFilename p p)) ::
        (((importDoseMatches p (otherFilesOf files)).filter (fun d =>
            d.refPlanUID = some p.sopInstanceUID && d.patientID = p.patientID)).map
          (fun d =>
            (d, IDest.planFolderDest (planFolderPath watch p) (planFolderFilename p d))) ++
         ((frameMatches p (ctFilesOf files) (structFilesOf files)).filter (fun r =>
            r.patientID = p.patientID)).map (fun r =>
            (r, IDest.planFolderDest (planFolderPath watch p) (planFolderFilename p r))))
    else [(p, IDest.failedDir)])

/-- Phase 3 of the import begins by iterating `ct_files` and
`structure_files` and evaluating `ct_file not in processed` where
`processed` is the integer counter initialised at line 883 (lines
1016-1023).  Membership in an `int` raises `TypeError`, so with any CT or
RTSTRUCT file present the import aborts before the orphan phase. -/
def importAborted (files : List DFile) : Bool :=
  !((ctFilesOf files).isEmpty && (structFilesOf files).isEmpty)

/-- Orphan phase of the import (lines 1031-1087): `orphaned_files` is
`set(other_files)`, and each orphan is copied into the patient's
`Unzugeordnet` folder, or quarantined when the copy fails. -/
def importPhase3 (watch : String) (files : List DFile) : List (DFile × IDest) :=
  (otherFilesOf files).map (fun o =>
    if o.placeOk then
      (o, IDest.orphanFolderDest (orphanFolderPath watch o) (orphanFilename o))
    else (o, IDest.failedDir))

/-- All placements performed by `process_import_folder` on one import
batch (the orphan phase only runs when the TypeError of lines 1016-1023
is not triggered). -/
def importPlacements (watch : String) (files : List DFile) : List (DFile × IDest) :=
  unreadFailed files ++ importPhase2 watch files ++
    (if importAborted files then [] else importPhase3 watch files)

/-! ### Concrete inputs for claims C1 and C2 -/

/-- An RTPLAN of patient P42 (concrete input for C1). -/
def planA : DFile :=
  { path := "plan.dcm", modality := "RTPLAN", patientID := "P42",
    patientName := "Doe^John", sopInstanceUID := "1.2.3.PLAN.A",
    studyUID := "1.2.3.STUDY.9.77", frameOfRefUID := "FOR.X",
    rtPlanLabel := "Head_ADP" }

/-- An RTDOSE of a different patient P43 whose referenced plan SOP UID
matches `planA` (concrete input for C1). -/
def doseCrossPatient : DFile :=
  { path := "dose.dcm", modality := "RTDOSE", patientID := "P43",
    patientName := "Roe^Jane", sopInstanceUID := "1.2.3.DOSE.B",
    studyUID := "1.2.3.STUDY.9.77", frameOfRefUID := "FOR.Y",
    refPlanUID := some "1.2.3.PLAN.A" }

/-- An RTDOSE referencing no plan at all (concrete input for C2). -/
def orphanDose : DFile :=
  { path := "od.dcm", modality := "RTDOSE", patientID := "P50",
    patientName := "X", sopInstanceUID := "1.2.3.OD", studyUID := "1.9",
    frameOfRefUID := "FOR.Z" }

/-! ## Theorems for claims C1 and C2 -/

/-- C1.  The receive-path plan grouper `_group_and_move_received_files`
attaches a dose to a plan folder on a referenced-SOP-UID match alone
(lines 289-298): on the flushed list `[planA, doseCrossPatient]` the dose
is placed into planA's plan folder although its PatientID differs, which
the claim forbids.  The import pipeline's matcher (line 856) rejects the
same pair, showing the PatientID guard is the intended behaviour that the
receive path omits. -/
theorem c1_receive_grouper_attaches_cross_patient_dose :
    doseCrossPatient.patientID ≠ planA.patientID ∧
    (receivePlacements "root" [planA, doseCrossPatient]).any
      (fun pr => pr.1 = doseCrossPatient && pr.2.isPlanFolder) = true ∧
    importDoseMatches planA [doseCrossPatient] = [] :=
  ⟨by decide, by decide, by decide⟩

/-- C2 counterexample.  A file received over the wire that matches no
RTPLAN is removed from the temp buffer by the cleanup of lines 509-515 and
is placed neither under the receive root nor under `failed/`: on the
flushed list `[orphanDose]` the complete outcome is one deletion and no
placement, so the claim, as stated for wire-received files, is false. -/
theorem c2_received_orphan_deleted_counterexample :
    receiveOutcome "root" [orphanDose] = [(orphanDose, RDest.deletedTemp)] := by
  decide

/-- C2 amended.  For the import path the no-data-loss invariant holds:
when `process_import_folder` reaches its orphan phase (that is, the batch
contains no CT and no RTSTRUCT file, whose phase-3 membership test
`ct_file not in processed` on the integer counter raises TypeError),
every file of the batch is placed into a plan folder, into the patient's
`Unzugeordnet` orphan folder, or quarantined under `failed/`.  Files
received over the wire that are not grouped to any RTPLAN are deleted
instead. -/
theorem c2_import_files_preserved_or_failed (watch : String) (files : List DFile)
    (f : DFile) (hab : importAborted files = false) (hf : f ∈ files) :
    ∃ d, (f, d) ∈ importPlacements watch files := by
  unfold importPlacements
  rw [hab]
  by_cases hro : f.readOk = true
  · by_cases hpl : f.modality = "RTPLAN"
    · have hmem : f ∈ planFilesOf files := by
        unfold planFilesOf
        rw [List.mem_filter]
        exact ⟨hf, by simp [hro, hpl]⟩
      by_cases hpo : f.placeOk = true
      · refine ⟨IDest.planFolderDest (planFolderPath watch f) (planFolderFilename f f), ?_⟩
        have h2 : (f, IDest.planFolderDest (planFolderPath watch f) (planFolderFilename f f))
            ∈ importPhase2 watch files := by
          unfold importPhase2
          rw [List.mem_flatMap]
          refine ⟨f, hmem, ?_⟩
          simp [hpo]
        simp only [List.append_assoc, List.mem_append]
        exact Or.inr (Or.inl h2)
      · refine ⟨IDest.failedDir, ?_⟩
        have h2 : (f, IDest.failedDir) ∈ importPhase2 watch files := by
          unfold importPhase2
          rw [List.mem_flatMap]
          refine ⟨f, hmem, ?_⟩
          simp [hpo]
        simp only [List.append_assoc, List.mem_append]
        exact Or.inr (Or.inl h2)
    · by_cases hct : f.modality = "CT"
      · exfalso
        have hmem : f ∈ ctFilesOf files := by
          unfold ctFilesOf
          rw [List.mem_filter]
          exact ⟨hf, by simp [hro, hct]⟩
        unfold importAborted at hab
        simp only [Bool.not_eq_false', Bool.and_eq_true] at hab
        rw [List.isEmpty_iff] at hab
        rw [hab.1] at hmem
        exact absurd hmem (List.not_mem_nil f)
      · by_cases hst : f.modality = "RTSTRUCT"
        · exfalso
          have hmem : f ∈ structFilesOf files := by
            unfold structFilesOf
            rw [List.mem_filter]
            exact ⟨hf, by simp [hro, hst]⟩
          unfold importAborted at hab
          simp only [Bool.not_eq_false', Bool.and_eq_true] at hab
          obtain ⟨h1c, h2s⟩ := hab
          rw [List.isEmpty_iff] at h2s
          rw [h2s] at hmem
          exact absurd hmem (List.not_mem_nil f)
        · have hmem : f ∈ otherFilesOf files := by
            unfold otherFilesOf
            rw [List.mem_filter]
            exact ⟨hf, by simp [hro, hpl, hct, hst]⟩
          by_cases hpo : f.placeOk = true
          · refine ⟨IDest.orphanFolderDest (orphanFolderPath watch f) (orphanFilename f), ?_⟩
            have h3 : (f, IDest.orphanFolderDest (orphanFolderPath watch f) (orphanFilename f))
                ∈ importPhase3 watch files := by
              unfold importPhase3
              rw [List.mem_map]
              refine ⟨f, hmem, ?_⟩
              simp [hpo]
            simp only [List.append_assoc, List.mem_append]
            exact Or.inr (Or.inr h3)
          · refine ⟨IDest.failedDir, ?_⟩
            have h3 : (f, IDest.failedDir) ∈ importPhase3 watch files := by
              unfold importPhase3
              rw [List.mem_map]
              refine ⟨f, hmem, ?_⟩
              simp [hpo]
            simp only [List.append_assoc, List.mem_append]
            exact Or.inr (Or.inr h3)
  · refine ⟨IDest.failedDir, ?_⟩
    have h1 : (f, IDest.failedDir) ∈ unreadFailed files := by
      unfold unreadFailed
      rw [List.mem_map]
      refine ⟨f, ?_, rfl⟩
      rw [List.mem_filter]
      exact ⟨hf, by simp [hro]⟩
    simp only [List.append_assoc, List.mem_append]
    exact Or.inl h1

/-- C2 amended, witness: the amended theorem applied to a one-element
batch, imported from the import folder, holding one unattached dose. -/
theorem c2_import_files_preserved_or_failed_witness :
    importAborted [orphanDose] = false ∧ orphanDose ∈ [orphanDose] ∧
    ∃ d, (orphanDose, d) ∈ importPlacements "root" [orphanDose] :=
  ⟨by decide, by decide,
    c2_import_files_preserved_or_failed "root" [orphanDose] orphanDose
      (by decide) (by decide)⟩

/-! ## Send engine (src/dicom_processor.py lines 1551-1667)

The live `send_plan_to_node` is the second definition (line 1551): it
enumerates the `.dcm` files of the plan folder, sorts them with
`_sort_files_by_modality`, sends them via `_send_files_to_node`, and calls
`delete_plan_files` only when `delete_after and success`.  A send batch
entry is modelled by its path and the modality obtained when reading the
header (`none` when `pydicom.dcmread` raises, the `except` branch of line
1659). -/

structure SendFile where
  path : String
  modality : Option String
deriving DecidableEq, Repr

/-- The sort key of `_sort_files_by_modality` (lines 1653-1661):
`self.modality_order` is the four-entry dict set in `__init__`
(CT 1, RTSTRUCT 2, RTPLAN 3, RTDOSE 4; the five-entry fallback of lines
1642-1649 never runs because `__init__` always sets the attribute),
`.get(modality, 99)` for other modalities, and 100 when reading raised. -/
def pythonOrder (f : SendFile) : Nat :=
  match f.modality with
  | none => 100
  | some m =>
    if m = "CT" then 1
    else if m = "RTSTRUCT" then 2
    else if m = "RTPLAN" then 3
    else if m = "RTDOSE" then 4
    else 99

/-- The claim's modality rank: CT 0, RTSTRUCT 1, RTPLAN 2, RTDOSE 3,
everything else (including files whose modality cannot be read) 4. -/
def claimRank (f : SendFile) : Nat :=
  match f.modality with
  | none => 4
  | some m =>
    if m = "CT" then 0
    else if m = "RTSTRUCT" then 1
    else if m = "RTPLAN" then 2
    else if m = "RTDOSE" then 3
    else 4

/-- Embedding of `_sort_files_by_modality` (lines 1632-1667): pair each
file with its order value and sort stably by that key (Python `list.sort`
is a stable sort; a stable insertion sort models it). -/
def sortFilesByModality (files : List SendFile) : List SendFile :=
  (List.insertionSort (fun a b : SendFile × Nat => a.2 ≤ b.2)
    (files.map (fun f => (f, pythonOrder f)))).map Prod.fst

/-- Embedding of `_send_files_to_node` (lines 1669-1845): empty batch
fails; association failure fails; otherwise success iff every file's
C-STORE status is 0 (`status` is the per-file outcome oracle; a non-zero
value also stands for a raised exception during that file's send).
No file is deleted or relocated on this path. -/
def sendFilesToNode (files : List SendFile) (assocEstablished : Bool)
    (status : SendFile → Nat) : Bool :=
  if files.isEmpty then false
  else if !assocEstablished then false
  else files.countP (fun f => status f = 0) = files.length

/-- Embedding of the live `send_plan_to_node` (lines 1551-1589): returns
the success flag and the list of source files deleted afterwards.
`delete_plan_files` (lines 1591-1630) removes every file of the plan
folder, and is invoked only when `delete_after and success`. -/
def send_plan_to_node (files : List SendFile) (assocEstablished : Bool)
    (status : SendFile → Nat) (delete_after : Bool) : Bool × List SendFile :=
  if files.isEmpty then (false, [])
  else
    let success := sendFilesToNode (sortFilesByModality files) assocEstablished status
    (success, if delete_after && success then files else [])

/-! ### DICOMnode batch builder (src/DICOMnode/DICOMnode.py lines 643-750) -/

/-- One file of a DICOMnode watch folder: `modality` is `none` when
`dcmread` raises; `doseNamed` records whether the lower-cased basename
contains `dose` or `rtdose` (line 696), in which case an unreadable file
is tagged `RTDOSE` and sent raw (lines 697-721); other unreadable files
are quarantined and never enter the batch (line 727). -/
structure NFile where
  path : String
  modality : Option String
  doseNamed : Bool
deriving DecidableEq, Repr

/-- Embedding of the batch built by `process_folder` (lines 670-749):
bucket the files by modality in the fixed order CT, RTSTRUCT, RTPLAN,
RTDOSE, then append all remaining readable files. -/
def processFolderBatch (files : List NFile) : List NFile :=
  files.filter (fun f => f.modality = some "CT") ++
    files.filter (fun f => f.modality = some "RTSTRUCT") ++
    files.filter (fun f => f.modality = some "RTPLAN") ++
    files.filter (fun f =>
      f.modality = some "RTDOSE" || (f.modality = none && f.doseNamed)) ++
    files.filter (fun f =>
      match f.modality with
      | some m => !(m = "CT") && !(m = "RTSTRUCT") && !(m = "RTPLAN") && !(m = "RTDOSE")
      | none => false)

/-- The claim's rank of a DICOMnode batch entry.  An unreadable dose-named
file is sent with a synthesized dataset whose `Modality` is `RTDOSE`
(lines 714-717), so its batch modality ranks 3. -/
def nodeClaimRank (f : NFile) : Nat :=
  match f.modality with
  | none => if f.doseNamed then 3 else 4
  | some m =>
    if m = "CT" then 0
    else if m = "RTSTRUCT" then 1
    else if m = "RTPLAN" then 2
    else if m = "RTDOSE" then 3
    else 4

/-! ### Helper lemmas for the send engine -/

/-- Bridge from the Python sort key to the claim's rank scale. -/
def rankOfOrder (n : Nat) : Nat :=
  if n ≤ 1 then 0 else if n ≤ 2 then 1 else if n ≤ 3 then 2
  else if n ≤ 4 then 3 else 4

theorem rankOfOrder_mono {n m : Nat} (h : n ≤ m) :
    rankOfOrder n ≤ rankOfOrder m := by
  unfold rankOfOrder
  split_ifs <;> omega

theorem claimRank_eq_rankOfOrder (f : SendFile) :
    claimRank f = rankOfOrder (pythonOrder f) := by
  unfold claimRank pythonOrder
  cases f.modality with
  | none => rfl
  | some m =>
    by_cases h1 : m = "CT"
    · simp [h1, rankOfOrder]
    · by_cases h2 : m = "RTSTRUCT"
      · simp [h1, h2, rankOfOrder]
      · by_cases h3 : m = "RTPLAN"
        · simp [h1, h2, h3, rankOfOrder]
        · by_cases h4 : m = "RTDOSE"
          · simp [h1, h2, h3, h4, rankOfOrder]
          · simp [h1, h2, h3, h4, rankOfOrder]

theorem mem_sortFilesByModality {g : SendFile} {files : List SendFile}
    (h : g ∈ files) : g ∈ sortFilesByModality files := by
  unfold sortFilesByModality
  rw [List.mem_map]
  refine ⟨(g, pythonOrder g), ?_, rfl⟩
  rw [(List.perm_insertionSort _ _).mem_iff, List.mem_map]
  exact ⟨g, h, rfl⟩

theorem pairwise_rank_append {α : Type} {rank : α → Nat} {xs ys : List α} {r : Nat}
    (hx : ∀ a ∈ xs, rank a = r)
    (hy : List.Pairwise (fun a b => rank a ≤ rank b) ys)
    (hmin : ∀ b ∈ ys, r ≤ rank b) :
    List.Pairwise (fun a b => rank a ≤ rank b) (xs ++ ys) := by
  rw [List.pairwise_append]
  refine ⟨?_, hy, ?_⟩
  · apply List.pairwise_of_forall_mem_list
    intro a ha b hb
    rw [hx a ha, hx b hb]
  · intro a ha b hb
    rw [hx a ha]
    exact hmin b hb

/-- Concrete CT entry used by the C3 witness. -/
def ctFileA : SendFile := ⟨"ct1.dcm", some "CT"⟩

/-! ## Theorems for claims C3 and C4 -/

/-- C3.  When a plan folder is sent with `delete_after`, a source file is
deleted only if `delete_after` is true and every file of the batch was
sent with status `0x0000`; in particular if any file fails, nothing is
deleted. -/
theorem c3_delete_only_when_all_sent (files : List SendFile) (assoc : Bool)
    (status : SendFile → Nat) (da : Bool) (d : SendFile)
    (hd : d ∈ (send_plan_to_node files assoc status da).2) :
    da = true ∧ ∀ g ∈ files, status g = 0 := by
  unfold send_plan_to_node at hd
  by_cases hemp : files.isEmpty
  · rw [if_pos hemp] at hd
    simp at hd
  · rw [if_neg hemp] at hd
    dsimp only at hd
    by_cases hcond :
        (da && sendFilesToNode (sortFilesByModality files) assoc status) = true
    · obtain ⟨hda, hsucc⟩ :
          da = true ∧ sendFilesToNode (sortFilesByModality files) assoc status = true := by
        simpa using hcond
      refine ⟨hda, ?_⟩
      intro g hg
      unfold sendFilesToNode at hsucc
      by_cases hse : (sortFilesByModality files).isEmpty
      · rw [if_pos hse] at hsucc
        exact absurd hsucc (by simp)
      · rw [if_neg hse] at hsucc
        by_cases hna : (!assoc) = true
        · rw [if_pos hna] at hsucc
          exact absurd hsucc (by simp)
        · rw [if_neg hna] at hsucc
          have hall : ∀ a ∈ sortFilesByModality files, status a = 0 := by
            simpa using hsucc
          exact hall g (mem_sortFilesByModality hg)
    · rw [if_neg hcond] at hd
      exact absurd hd (List.not_mem_nil d)

/-- C3 witness: a one-file batch that succeeds with `delete_after = true`
does delete its file, and the theorem applies to it. -/
theorem c3_delete_only_when_all_sent_witness :
    ctFileA ∈ (send_plan_to_node [ctFileA] true (fun _ => 0) true).2 ∧
    (true = true ∧ ∀ g ∈ [ctFileA], (fun _ : SendFile => 0) g = 0) :=
  ⟨by decide,
    c3_delete_only_when_all_sent [ctFileA] true (fun _ => 0) true ctFileA (by decide)⟩

/-- C4.  Every send batch is ordered by the claim's modality rank
(CT 0, RTSTRUCT 1, RTPLAN 2, RTDOSE 3, everything else 4): this holds for
the batches of `_sort_files_by_modality` used by the live
`send_plan_to_node`, and for the batches built by the DICOMnode daemon's
`process_folder`. -/
theorem c4_send_batches_modality_sorted (files : List SendFile)
    (nfiles : List NFile) :
    List.Pairwise (fun a b => claimRank a ≤ claimRank b)
      (sortFilesByModality files) ∧
    List.Pairwise (fun a b => nodeClaimRank a ≤ nodeClaimRank b)
      (processFolderBatch nfiles) := by
  constructor
  · unfold sortFilesByModality
    haveI : IsTotal (SendFile × Nat) (fun a b => a.2 ≤ b.2) :=
      ⟨fun a b => Nat.le_total a.2 b.2⟩
    haveI : IsTrans (SendFile × Nat) (fun a b => a.2 ≤ b.2) :=
      ⟨fun _ _ _ h1 h2 => Nat.le_trans h1 h2⟩
    have hs := List.sorted_insertionSort (fun a b : SendFile × Nat => a.2 ≤ b.2)
      (files.map (fun f => (f, pythonOrder f)))
    rw [List.pairwise_map]
    refine List.Pairwise.imp_of_mem ?_ hs
    intro a b ha hb hle
    have ha2 : a.2 = pythonOrder a.1 := by
      have ham := (List.perm_insertionSort _ _).mem_iff.mp ha
      obtain ⟨f, _, hf⟩ := List.mem_map.mp ham
      rw [← hf]
    have hb2 : b.2 = pythonOrder b.1 := by
      have hbm := (List.perm_insertionSort _ _).mem_iff.mp hb
      obtain ⟨f, _, hf⟩ := List.mem_map.mp hbm
      rw [← hf]
    rw [claimRank_eq_rankOfOrder, claimRank_eq_rankOfOrder]
    exact rankOfOrder_mono (by rw [← ha2, ← hb2]; exact hle)
  · unfold processFolderBatch
    have h0 : ∀ f ∈ nfiles.filter (fun f => f.modality = some "CT"),
        nodeClaimRank f = 0 := by
      intro f hf
      have h : f.modality = some "CT" := by
        simpa using (List.mem_filter.mp hf).2
      unfold nodeClaimRank
      rw [h]
      rfl
    have h1 : ∀ f ∈ nfiles.filter (fun f => f.modality = some "RTSTRUCT"),
        nodeClaimRank f = 1 := by
      intro f hf
      have h : f.modality = some "RTSTRUCT" := by
        simpa using (List.mem_filter.mp hf).2
      unfold nodeClaimRank
      rw [h]
      rfl
    have h2 : ∀ f ∈ nfiles.filter (fun f => f.modality = some "RTPLAN"),
        nodeClaimRank f = 2 := by
      intro f hf
      have h : f.modality = some "RTPLAN" := by
        simpa using (List.mem_filter.mp hf).2
      unfold nodeClaimRank
      rw [h]
      rfl
    have h3 : ∀ f ∈ nfiles.filter (fun f =>
        f.modality = some "RTDOSE" || (f.modality = none && f.doseNamed)),
        nodeClaimRank f = 3 := by
      intro f hf
      have h := (List.mem_filter.mp hf).2
      simp only [Bool.or_eq_true, Bool.and_eq_true, decide_eq_true_eq] at h
      unfold nodeClaimRank
      rcases h with h | ⟨hn, hd⟩
      · rw [h]
        rfl
      · rw [hn, hd]
        rfl
    have h4 : ∀ f ∈ nfiles.filter (fun f =>
        match f.modality with
        | some m => !(m = "CT") && !(m = "RTSTRUCT") && !(m = "RTPLAN") && !(m = "RTDOSE")
        | none => false),
        nodeClaimRank f = 4 := by
      intro f hf
      have h := (List.mem_filter.mp hf).2
      cases hm : f.modality with
      | none =>
        rw [hm] at h
        exact absurd h (by simp)
      | some m =>
        rw [hm] at h
        simp only [Bool.and_eq_true, Bool.not_eq_true', decide_eq_false_iff_not] at h
        obtain ⟨⟨⟨hA, hB⟩, hC⟩, hD⟩ := h
        unfold nodeClaimRank
        rw [hm]
        simp [hA, hB, hC, hD]
    simp only [List.append_assoc]
    refine pairwise_rank_append h0 ?_ ?_
    · refine pairwise_rank_append h1 ?_ ?_
      · refine pairwise_rank_append h2 ?_ ?_
        · refine pairwise_rank_append h3 ?_ ?_
          · apply List.pairwise_of_forall_mem_list
            intro a ha b hb
            rw [h4 a ha, h4 b hb]
          · intro b hb
            rw [h4 b hb]
            omega
        · intro b hb
          rcases List.mem_append.mp hb with hb | hb
          · rw [h3 b hb]; omega
          · rw [h4 b hb]; omega
      · intro b hb
        rcases List.mem_append.mp hb with hb | hb
        · rw [h2 b hb]; omega
        rcases List.mem_append.mp hb with hb | hb
        · rw [h3 b hb]; omega
        · rw [h4 b hb]; omega
    · intro b hb
      rcases List.mem_append.mp hb with hb | hb
      · rw [h1 b hb]; omega
      rcases List.mem_append.mp hb with hb | hb
      · rw [h2 b hb]; omega
      rcases List.mem_append.mp hb with hb | hb
      · rw [h3 b hb]; omega
      · rw [h4 b hb]; omega

/-! ## C-ECHO handler (src/DICOMnode/DICOMnode.py lines 62-77)

The handler extracts the calling AE title, checks it against the
configured trusted list (`is_trusted_ae`, line 64) and returns a status.
Its body performs no filesystem write and touches no receive buffer, which
the effect fields record explicitly. -/

structure EchoEffect where
  status : Nat
  filesWritten : List String
  bucketsCreated : List (String × String)
deriving DecidableEq, Repr

/-- Embedding of `handle_echo`: status `0xC001` for an untrusted caller,
`0x0000` otherwise; no file written, no bucket created either way. -/
def handle_echo (trustedAETitles : List String) (requestorAE : String) : EchoEffect :=
  if requestorAE ∈ trustedAETitles then
    { status := 0x0000, filesWritten := [], bucketsCreated := [] }
  else
    { status := 0xC001, filesWritten := [], bucketsCreated := [] }

/-! ## Failed-path quarantine

`DicomProcessor.move_to_failed` (src/dicom_processor.py lines 582-615) and
`DicomNodeApp.move_to_failed` (src/DICOMnode/DICOMnode.py lines 961-988)
are modelled as functions from their inputs to the list of filesystem
actions they perform.  `ts` is `datetime.now().strftime("%Y%m%d_%H%M%S")`
resp. `time.strftime("%Y%m%d_%H%M%S")`, `tsLong` the long-format
timestamp used inside the message bodies. -/

inductive FSAction
  | moveFile (src dest : String)
  | writeFile (dest : String) (lines : List String)
deriving DecidableEq, Repr

/-- Destination path of a write action (`none` for a move). -/
def FSAction.writeDest : FSAction → Option String
  | FSAction.moveFile _ _ => none
  | FSAction.writeFile dest _ => some dest

/-- Model of `os.path.basename` over `/`-separated paths: the characters
after the last `/`, or the whole path without one. -/
def basename (p : String) : String :=
  ((p.toList.reverse.takeWhile (fun c => !(c = '/'))).reverse).asString

/-- Embedding of `DicomProcessor.move_to_failed` (lines 582-615): if the
file exists, move it to `failed/<ts>_<basename>` and write the sibling
`<dest>.error` containing the message, the original path and the long
timestamp. -/
def move_to_failed (failedFolder filePath errorMsg ts tsLong : String)
    (fileExists : Bool) : List FSAction :=
  if !fileExists then []
  else
    let destFile := failedFolder ++ "/" ++ ts ++ "_" ++ basename filePath
    [FSAction.moveFile filePath destFile,
     FSAction.writeFile (destFile ++ ".error")
       [errorMsg, "Originalpfad: " ++ filePath, "Zeitpunkt: " ++ tsLong]]

/-- Embedding of the DICOMnode daemon's `move_to_failed` (lines 961-988):
`shutil.copy2` plus `os.remove` relocate the file to
`failed/<ts>_<basename>`, and `log_error` appends one line to the shared
`self.log_file` — no per-file `.error` sibling is created. -/
def nodeMoveToFailed (failedFolder logFile filePath errorMsg ts tsLong : String) :
    List FSAction :=
  let destFile := failedFolder ++ "/" ++ ts ++ "_" ++ basename filePath
  [FSAction.moveFile filePath destFile,
   FSAction.writeFile logFile
     ["[" ++ tsLong ++ "] Failed file moved to " ++ destFile ++ ": " ++ errorMsg]]

/-! ## Forwarding-rule engine (src/rules_manager.py lines 185-258) -/

/-- A peer entry as returned by `settings_manager.get_node_info`. -/
structure NodeInfo where
  aet : String := ""
  ip : String := ""
  port : Nat := 104
  enabled : Bool := false
deriving DecidableEq, Repr

/-- One forwarding rule, as `get_all_rules` (lines 112-126) materialises
it from the configuration: `target_nodes` is the comma-split list (a
config value of `""` splits to `[""]`, never to `[]`). -/
structure FwdRule where
  id : String
  name : String
  enabled : Bool
  source_ae : String
  target_nodes : List String
  plan_label_match : String
deriving DecidableEq, Repr

/-- The rule snapshot: the global `rules_enabled` flag plus all rules. -/
structure RulesConfig where
  rulesEnabled : Bool
  rules : List FwdRule
deriving DecidableEq, Repr

/-- Python substring containment `needle in haystack`. -/
def strContains (haystack needle : String) : Bool :=
  decide (needle.toList <:+: haystack.toList)

/-- Python `str.strip()` on a `String`. -/
def pyStripString (s : String) : String :=
  (pyStrip s.toList).asString

/-- Lookup of `settings_manager.get_node_info` in the peer table. -/
def getNodeInfo (settings : List (String × NodeInfo)) (name : String) :
    Option NodeInfo :=
  (settings.find? (fun e => e.1 = name)).map Prod.snd

/-- The per-rule evaluation of `check_forwarding_rules` (lines 206-251):
skip disabled rules; skip when `source_ae` is non-empty and differs; skip
when `plan_label_match` is non-empty and not a substring of the plan name;
skip when the target list is the empty-string singleton; otherwise resolve
each stripped target name and keep the enabled ones. -/
def ruleTargets (settings : List (String × NodeInfo)) (source_ae plan_name : String)
    (rule : FwdRule) : List (String × NodeInfo) :=
  if !rule.enabled then []
  else if !(rule.source_ae = "") && !(rule.source_ae = source_ae) then []
  else if !(rule.plan_label_match = "") &&
      !(strContains plan_name rule.plan_label_match) then []
  else if rule.target_nodes = [] ||
      (rule.target_nodes.length = 1 && rule.target_nodes.getD 0 "" = "") then []
  else
    rule.target_nodes.filterMap (fun rawName =>
      let nodeName := pyStripString rawName
      if nodeName = "" then none
      else
        match getNodeInfo settings nodeName with
        | some info => if info.enabled then some (nodeName, info) else none
        | none => none)

/-- Embedding of `RulesManager.check_forwarding_rules` (lines 185-258).
The method only reads its configuration (`get_rules_enabled`,
`get_all_rules`) and never writes it, so the state-passing embedding
returns the snapshot unchanged together with the target list: globally
disabled rules yield the empty list, otherwise the matching targets of
all rules in order. -/
def check_forwarding_rules (cfg : RulesConfig) (source_ae plan_name : String)
    (settings : List (String × NodeInfo)) :
    List (String × NodeInfo) × RulesConfig :=
  (if !cfg.rulesEnabled then []
   else cfg.rules.flatMap (ruleTargets settings source_ae plan_name), cfg)

/-! ## Theorems for claims C7, C8, C9 -/

/-- C7.  The C-ECHO handler returns `0xC001` exactly when the calling AE
title is not in the trusted list and `0x0000` otherwise, and it writes no
file and creates no receive bucket. -/
theorem c7_echo_status_iff_trusted (trusted : List String) (ae : String) :
    ((handle_echo trusted ae).status = 0xC001 ↔ ae ∉ trusted) ∧
    ((handle_echo trusted ae).status = 0x0000 ↔ ae ∈ trusted) ∧
    (handle_echo trusted ae).filesWritten = [] ∧
    (handle_echo trusted ae).bucketsCreated = [] := by
  unfold handle_echo
  by_cases h : ae ∈ trusted
  · rw [if_pos h]
    exact ⟨⟨fun hc => absurd hc (by decide), fun hni => absurd h hni⟩,
      ⟨fun _ => h, fun _ => rfl⟩, rfl, rfl⟩
  · rw [if_neg h]
    exact ⟨⟨fun _ => h, fun _ => rfl⟩,
      ⟨fun hc => absurd hc (by decide), fun hin => absurd hin h⟩, rfl, rfl⟩

/-- C8 counterexample.  The DICOMnode daemon's quarantine path relocates
the file into `failed/` under a timestamp-prefixed name, but it creates no
sibling `.error` file: its only write goes to the shared log file.  So the
claim, which requires a sibling `.error` file on every quarantine path,
fails on this concrete quarantine. -/
theorem c8_node_quarantine_no_error_sibling :
    FSAction.moveFile "in/a.dcm" "root/failed/20240101_120000_a.dcm" ∈
      nodeMoveToFailed "root/failed" "root/failed/error_log.txt" "in/a.dcm"
        "boom" "20240101_120000" "2024-01-01 12:00:00" ∧
    ((nodeMoveToFailed "root/failed" "root/failed/error_log.txt" "in/a.dcm"
        "boom" "20240101_120000" "2024-01-01 12:00:00").all (fun act =>
      !(act.writeDest = some "root/failed/20240101_120000_a.dcm.error"))) = true :=
  ⟨by decide, by decide⟩

/-- C8 amended.  `DicomProcessor.move_to_failed` relocates an existing
file to `failed/<yyyymmdd_HHMMSS>_<original>` and writes the sibling
`<...>.error` file containing the failure message and timestamp; the
DICOMnode daemon's `move_to_failed` also relocates under the
timestamp-prefixed name but appends the failure message to the shared
error log file instead of creating a sibling `.error` file. -/
theorem c8_failed_path_amended (folder logFile path msg ts ts2 : String) :
    FSAction.moveFile path (folder ++ "/" ++ ts ++ "_" ++ basename path) ∈
      move_to_failed folder path msg ts ts2 true ∧
    FSAction.writeFile ((folder ++ "/" ++ ts ++ "_" ++ basename path) ++ ".error")
        [msg, "Originalpfad: " ++ path, "Zeitpunkt: " ++ ts2] ∈
      move_to_failed folder path msg ts ts2 true ∧
    FSAction.moveFile path (folder ++ "/" ++ ts ++ "_" ++ basename path) ∈
      nodeMoveToFailed folder logFile path msg ts ts2 ∧
    ((nodeMoveToFailed folder logFile path msg ts ts2).all (fun act =>
      (act.writeDest = none) || (act.writeDest = some logFile))) = true := by
  refine ⟨?_, ?_, ?_, ?_⟩ <;>
    simp [move_to_failed, nodeMoveToFailed, FSAction.writeDest]

/-- C9.  Rule evaluation is pure and deterministic: the embedded
`check_forwarding_rules` leaves the rule snapshot unchanged, a repeated
call on the resulting state returns the same target list, and when rules
are globally disabled the result is empty. -/
theorem c9_rules_check_pure_and_disabled_empty (cfg : RulesConfig)
    (src lbl : String) (settings : List (String × NodeInfo))
    (rules : List FwdRule) :
    (check_forwarding_rules cfg src lbl settings).2 = cfg ∧
    (check_forwarding_rules (check_forwarding_rules cfg src lbl settings).2
        src lbl settings).1 =
      (check_forwarding_rules cfg src lbl settings).1 ∧
    (check_forwarding_rules ⟨false, rules⟩ src lbl settings).1 = [] :=
  ⟨rfl, rfl, rfl⟩
